import Mathlib

/-!
Verification development for the ArbiTrace repository: a shallow embedding of
the indexer (src/indexer.js, the unnamed module with the SQLite tables), the
Stylus revert decoder (src/stylusParser.js), the failure classifier and
lifecycle computation (src/server.js), the causality analyzer
(src/causalityAnalyzer.js) and the provider gateway (src/arbitrum.js),
together with theorems settling the frozen claims about them.

Modelling conventions:
* JS BigInt / integer values are `Nat` or `Int`; decimal strings holding
  numbers (ticket parameters) are modelled by their numeric value, with the
  JS default `x || '0'` folded into the value `0`.
* Floating point comparisons (`a / b >= 0.99`, `> 0.95`) are modelled by the
  exact rational inequality (`100 * a ≥ 99 * b`, `20 * a > 19 * b`); the
  inputs exercised by the claims are far from any rounding boundary.
* Async provider calls made by the classifier are modelled by an explicit
  environment record: each call site reads one field describing the settled
  outcome of that call (`Except` for a call that may throw, `Option` for a
  null result).
* SQLite tables are lists of rows; `INSERT OR IGNORE` keeps the table when
  the primary key is present, `INSERT OR REPLACE` deletes the conflicting
  row and appends the new one.  Point lookups return the first matching row.
-/

namespace ArbiTrace

/-! ### JS string helpers used by the source -/

/-- Value of one hex digit, as JS `parseInt` base 16 sees characters. -/
def hexDigitVal (c : Char) : Option Nat :=
  if '0' ≤ c ∧ c ≤ '9' then some (c.toNat - 48)
  else if 'a' ≤ c ∧ c ≤ 'f' then some (c.toNat - 87)
  else if 'A' ≤ c ∧ c ≤ 'F' then some (c.toNat - 55)
  else none

/-- Accumulating core of `parseInt(s, 16)`: consume hex digits until the
first non-digit; `none` models `NaN` (no digit consumed at all). -/
def parseIntHexCore : List Char → Option Nat → Option Nat
  | [], acc => acc
  | c :: cs, acc =>
    match hexDigitVal c with
    | some d => parseIntHexCore cs (some (acc.getD 0 * 16 + d))
    | none => acc

/-- `listStarts pat s`: does the character list `s` start with `pat`? -/
def listStarts : List Char → List Char → Bool
  | [], _ => true
  | _ :: _, [] => false
  | p :: ps, c :: cs => p == c && listStarts ps cs

/-- JS `String.prototype.startsWith(pat)`. -/
def jsStartsWith (s pat : String) : Bool :=
  listStarts pat.data s.data

/-- JS `parseInt(s, 16)` on the strings the source builds (an optional
`0x` prepended to sliced hex text); `none` models `NaN`. -/
def parseIntHex (s : String) : Option Nat :=
  let t := if jsStartsWith s "0x" then String.mk (s.data.drop 2) else s
  parseIntHexCore t.data none

/-- JS `String.prototype.slice(a, b)` for the non-negative indices used by
the source; out-of-range ends clamp to the end of the string. -/
def jsSlice (s : String) (a b : Nat) : String :=
  String.mk ((s.data.drop a).take (b - a))

/-- JS `String.prototype.padStart(n, '0')`. -/
def padStartZeros (n : Nat) (s : String) : String :=
  String.mk (List.replicate (n - s.length) '0') ++ s

/-- JS `Number.prototype.toString(16)` for a non-negative integer:
lowercase hex digits. -/
def toHexString (n : Nat) : String :=
  String.mk (Nat.toDigits 16 n)

/-- JS `String.prototype.toLowerCase()`, exact on the ASCII text the
source compares against. -/
def jsToLower (s : String) : String :=
  String.mk (s.data.map Char.toLower)

/-- Does some suffix of `s` start with `pat`? -/
def listHasSub (pat : List Char) : List Char → Bool
  | [] => listStarts pat []
  | c :: rest => listStarts pat (c :: rest) || listHasSub pat rest

/-- JS `String.prototype.includes(pat)`. -/
def strContains (s pat : String) : Bool :=
  listHasSub pat.data s.data

/-- Node `Buffer.from(hex, 'hex')`: decode hex pairs until the first
invalid pair or odd leftover. -/
def hexPairsToBytes : List Char → List Nat
  | c1 :: c2 :: rest =>
    match hexDigitVal c1, hexDigitVal c2 with
    | some a, some b => (a * 16 + b) :: hexPairsToBytes rest
    | _, _ => []
  | _ => []

/-- Node `buffer.toString('utf8')`: exact for the ASCII bytes the claims
exercise; a non-ASCII byte is mapped to the replacement character
(multi-byte sequences are not exercised by any claim). -/
def utf8OfBytes (bs : List Nat) : String :=
  String.mk (bs.map fun b => if b < 128 then Char.ofNat b else Char.ofNat 0xFFFD)

/-- `buffer.toString('utf8')` of `Buffer.from(hexStr, 'hex')`. -/
def utf8OfHex (s : String) : String :=
  utf8OfBytes (hexPairsToBytes s.data)

/-! ### Ticket index store (src/indexer.js)

Tables `retryable_tickets` (PRIMARY KEY ticket_id, INSERT OR IGNORE),
`ticket_to_l2tx` (PRIMARY KEY ticket_id, INSERT OR REPLACE). -/

/-- One row of the `retryable_tickets` table. -/
structure TicketDbRow where
  ticket_id : String
  l1_tx_hash : String
  creator : String
  to_address : String
  l2_call_value : String
  gas_limit : String
  max_fee_per_gas : String
  data : String
  block_number : Int
  created_at : Nat
  deriving DecidableEq, Repr

/-- One row of the `ticket_to_l2tx` table. -/
structure L2MapRow where
  ticket_id : String
  l2_tx_hash : String
  l2_block_number : Int
  indexed_at : Nat
  deriving DecidableEq, Repr

/-- `insertStmt`: `INSERT OR IGNORE INTO retryable_tickets ...` — the table
is unchanged when a row with the same `ticket_id` already exists. -/
def insertOrIgnoreTicket (tbl : List TicketDbRow) (row : TicketDbRow) : List TicketDbRow :=
  if tbl.any (fun r => r.ticket_id == row.ticket_id) then tbl else tbl ++ [row]

/-- `insertTicketToL2`: `INSERT OR REPLACE INTO ticket_to_l2tx ...` — a
conflicting row (same primary key) is deleted and the new row stored. -/
def insertOrReplaceL2 (tbl : List L2MapRow) (row : L2MapRow) : List L2MapRow :=
  tbl.filter (fun r => ¬ (r.ticket_id == row.ticket_id)) ++ [row]

/-- `insertMapping(ticketId, l2TxHash, blockNumber)`: runs the
INSERT OR REPLACE statement with `indexed_at = Date.now()` (the `nowMs`
parameter) and returns `true`; the catch branch is unreachable for this
statement, which never raises a constraint error. -/
def insertMapping (nowMs : Nat) (tbl : List L2MapRow)
    (ticketId l2TxHash : String) (blockNumber : Int) : List L2MapRow × Bool :=
  (insertOrReplaceL2 tbl ⟨ticketId, l2TxHash, blockNumber, nowMs⟩, true)

/-- `findL2ForTicket(ticketId)`: `SELECT * FROM ticket_to_l2tx WHERE
ticket_id = ?` `.get` — the first matching row or `null`. -/
def findL2ForTicket (tbl : List L2MapRow) (ticketId : String) : Option L2MapRow :=
  tbl.find? (fun r => r.ticket_id == ticketId)

/-! `indexRange(startBlock, endBlock)` walks blocks `startBlock..endBlock`,
fetches each transaction receipt, parses each log against the Inbox
interface and, for each `RetryableTicketCreated` event, runs the
INSERT OR IGNORE statement and increments `results.inserted` —
unconditionally, whether or not the row was actually ignored. -/

/-- A parsed `RetryableTicketCreated` event (`parsed.args`). -/
structure CreationEvent where
  ticketId : String
  fromAddr : String
  -- source fields `from` and `to` are renamed: both are reserved words here
  toAddr : String
  l2CallValue : String
  gasLimit : String
  maxFeePerGas : String
  data : String
  deriving DecidableEq, Repr

/-- Receipt data used by `indexRange`: hash, block number, and for each log
the outcome of `inboxInterface.parseLog` (`none` covers both a parse throw
and a parsed event that is not `RetryableTicketCreated`, which the source
skips identically). -/
structure IndexReceipt where
  transactionHash : String
  blockNumber : Int
  logs : List (Option CreationEvent)
  deriving DecidableEq, Repr

/-- One transaction of a block: `getTransactionReceipt` yields a receipt,
or `none` (null receipt, missing logs, or a thrown RPC error — all skipped
identically by the source). -/
structure IndexTx where
  receipt : Option IndexReceipt
  deriving DecidableEq, Repr

/-- The row `indexRange` builds from a parsed creation log. -/
def rowOfCreation (nowMs : Nat) (rc : IndexReceipt) (p : CreationEvent) : TicketDbRow :=
  { ticket_id := p.ticketId
    l1_tx_hash := rc.transactionHash
    creator := p.fromAddr
    to_address := p.toAddr
    l2_call_value := p.l2CallValue
    gas_limit := p.gasLimit
    max_fee_per_gas := p.maxFeePerGas
    data := p.data
    block_number := rc.blockNumber
    created_at := nowMs }

/-- Inner log loop of `indexRange`. -/
def processLogs (nowMs : Nat) (rc : IndexReceipt) (logs : List (Option CreationEvent))
    (acc : List TicketDbRow × Nat) : List TicketDbRow × Nat :=
  logs.foldl
    (fun acc log =>
      match log with
      | none => acc
      | some p => (insertOrIgnoreTicket acc.1 (rowOfCreation nowMs rc p), acc.2 + 1))
    acc

/-- Transaction loop of `indexRange`. -/
def processTxs (nowMs : Nat) (txs : List IndexTx)
    (acc : List TicketDbRow × Nat) : List TicketDbRow × Nat :=
  txs.foldl
    (fun acc tx =>
      match tx.receipt with
      | none => acc
      | some rc => processLogs nowMs rc rc.logs acc)
    acc

/-- `indexRange(startBlock, endBlock)` over the chain data `provider`
(`provider b = none` models a null block, a block without transactions, or
a thrown block fetch — all skipped identically), starting from table `tbl`.
Returns the table together with `results.inserted`. -/
def indexRange (nowMs : Nat) (provider : Nat → Option (List IndexTx))
    (startBlock endBlock : Nat) (tbl : List TicketDbRow) : List TicketDbRow × Nat :=
  (List.range' startBlock (endBlock + 1 - startBlock)).foldl
    (fun acc b =>
      match provider b with
      | none => acc
      | some txs => processTxs nowMs txs acc)
    (tbl, 0)

/-! ### Stylus revert decoder (src/stylusParser.js) -/

/-- The fixed panic-code table `PANIC_CODES` (13 entries). -/
def PANIC_CODES : List (String × String) :=
  [("0x00", "Generic panic"),
   ("0x01", "Assertion failed (assert() failed)"),
   ("0x11", "Arithmetic underflow or overflow"),
   ("0x12", "Division or modulo by zero"),
   ("0x21", "Invalid enum value"),
   ("0x22", "Invalid encoding for storage"),
   ("0x31", "Function called in uninitialized contract"),
   ("0x32", "Function called after contract self-destructed"),
   ("0x41", "Integer overflow during downcast"),
   ("0x51", "Array access out of bounds"),
   ("0x61", "Resource exhausted (memory, etc.)"),
   ("0xfe", "Assertion or assertion-like failure (revert)"),
   ("0xff", "Internal error in Solidity")]

/-- `PANIC_CODES[key]` object lookup. -/
def panicLookup (key : String) : Option String :=
  (PANIC_CODES.find? (fun e => e.1 == key)).map (fun e => e.2)

/-- Result object of `decodeStylusPanic`; `numeric` is only present on the
Panic branch (and `none` there models a `NaN` panic code). -/
structure StylusDecode where
  code : String
  reason : String
  numeric : Option Nat
  deriving DecidableEq, Repr

/-- `decodeStylusPanic(revertData)`.  Note that every branch returns an
object — the function never returns `null` and never throws (its only
`try/catch` guards operations that do not throw on string inputs).

The `Error(string)` branch reads the length word at character offset
`74 + offset * 2` — which, for the standard ABI offset `0x20`, is the first
word of the string *data*, not the length word at offset 74.  The decoder
therefore mis-slices well-formed `Error(string)` payloads. -/
def decodeStylusPanic (revertData : String) : StylusDecode :=
  if revertData = "" ∨ revertData = "0x" then
    ⟨"unknown", "No revert data available", none⟩
  else if jsStartsWith revertData "0x4e487b71" then
    match parseIntHex ("0x" ++ jsSlice revertData 10 74) with
    | some n =>
      let panicCodeStr := "0x" ++ padStartZeros 2 (toHexString n)
      ⟨panicCodeStr,
       (panicLookup panicCodeStr).getD ("Unknown panic code " ++ panicCodeStr),
       some n⟩
    | none =>
      -- NaN.toString(16) is "NaN"; "NaN".padStart(2, "0") is "NaN"
      ⟨"0xNaN", "Unknown panic code 0xNaN", none⟩
  else if jsStartsWith revertData "0x08c379a0" then
    match parseIntHex ("0x" ++ jsSlice revertData 10 74) with
    | none =>
      -- NaN offset: every subsequent slice index is NaN, JS clamps to 0,
      -- so the decoded message is empty
      ⟨"Error", "", none⟩
    | some off =>
      match parseIntHex ("0x" ++ jsSlice revertData (74 + off * 2) (74 + off * 2 + 64)) with
      | none =>
        -- NaN length: slice(a, NaN) is empty in JS
        ⟨"Error", "", none⟩
      | some len =>
        ⟨"Error",
         utf8OfHex (jsSlice revertData (74 + off * 2 + 64) (74 + off * 2 + 64 + len * 2)),
         none⟩
  else
    ⟨"unknown", "Unknown revert format", none⟩

/-- The exact ABI encoding of `Panic(uint256 code)`:
selector `4e487b71` followed by the 32-byte big-endian code. -/
def panicPayloadHex (n : Nat) : String :=
  "0x4e487b71" ++ padStartZeros 64 (toHexString n)

/-- The exact ABI encoding of `Error(string msg)` for a message of
`msgBytes` bytes (1..32 of them): selector `08c379a0`, offset word `0x20`,
length word, and the string data right-padded to 32 bytes. -/
def errorPayloadHex (msgBytes : List Nat) : String :=
  "0x08c379a0" ++ padStartZeros 64 (toHexString 32)
    ++ padStartZeros 64 (toHexString msgBytes.length)
    ++ String.mk ((msgBytes.map fun b => (padStartZeros 2 (toHexString b)).data).flatten)
    ++ String.mk (List.replicate (64 - 2 * msgBytes.length) '0')

/-! ### Failure classifier (src/server.js, classifyFailureDetailed)

The source function is async and mutates a `result` object in five
successive blocks.  Each block is one `step…` definition below, applied in
source order.  Provider calls are read from a `ClassifyEnv` record. -/

/-- A transaction receipt as the classifier sees it.  `gasUsed`/`gasLimit`
are `none` when the field is absent or null. -/
structure Receipt where
  status : Nat
  gasUsed : Option Nat := none
  gasLimit : Option Nat := none
  transactionHash : String := ""
  deriving DecidableEq, Repr

/-- `detection` as produced by `findTxOnProviders`. -/
structure Detection where
  l1Receipt : Option Receipt
  l2Receipt : Option Receipt
  deriving DecidableEq, Repr

/-- The retryable-ticket parameters the classifier reads (decimal strings
in the source, modelled by value; `field || '0'` becomes the value 0). -/
structure Retryable where
  gasLimit : Nat
  l2CallValue : Nat
  maxFeePerGas : Nat
  deriving DecidableEq, Repr

/-- One lifecycle event (`retryableLifecycle.events[i]`). -/
structure LifeEvent where
  name : String
  blockNumber : Int
  transactionHash : String := ""
  deriving DecidableEq, Repr

/-- `retryableLifecycle`: a record with an `events` array. -/
structure Lifecycle where
  events : List LifeEvent
  deriving DecidableEq, Repr

/-- A `debug_traceTransaction` result: the `error` field, and `raw`, the
first non-null of `returnValue` / `result.returnValue` / `output` /
`result.output`. -/
structure DebugTrace where
  error : Option String := none
  raw : Option String := none

/-- Settled outcomes of the async calls `classifyFailureDetailed` makes,
one field per call site, in source order.  `Except.error` models a thrown
(and caught) call, `Option` a null result. -/
structure ClassifyEnv where
  /-- `computeL2BaseFeeAverage(10)`: `none` models null or a throw. -/
  avgBaseFee : Option Nat := none
  /-- `l2Provider.getTransactionReceipt(redeemed[0].transactionHash)`:
  the receipt status, `Except.ok none` a null receipt. -/
  redeemReceiptStatus : Except Unit (Option Nat) := Except.error ()
  /-- `debugTraceTransaction(...)`. -/
  debugTrace : Except Unit (Option DebugTrace) := Except.error ()
  /-- `cacheGet('revert:' + txHash)`. -/
  cachedRevertMsg : Option String := none
  /-- the ethers `AbiCoder().decode(['string'], payload)` oracle:
  `none` models a decode throw. -/
  abiDecodeString : String → Option String := fun _ => none
  /-- `l2Provider.getTransaction(txHash)`: whether a transaction came back. -/
  l2Tx : Except Unit Bool := Except.error ()
  /-- `l2Provider.call(...)`: `some msg` models a throw carrying `msg`. -/
  l2CallError : Option String := none

/-- The fields of the classifier `result` object the claims are about
(`hints` is presentation-only and omitted). -/
structure ClassifyResult where
  failureAt : String
  failureReason : String
  failureMessage : Option String
  deriving DecidableEq, Repr

/-- Initial `result` object. -/
def classifyInit : ClassifyResult :=
  ⟨"UNKNOWN", "UNKNOWN", none⟩

/-- Block 1: "L1 failure takes precedence". -/
def stepL1 (detection : Detection) (r : ClassifyResult) : ClassifyResult :=
  match detection.l1Receipt with
  | some rc =>
    if rc.status = 0 then
      { r with failureAt := "L1_SUBMISSION", failureReason := "LOGIC_REVERT" }
    else r
  | none => r

/-- Block 2: retryable parameter heuristics.  Each sub-check updates
`failureReason` only while `failureAt` is still `UNKNOWN`. -/
def stepRetryable (env : ClassifyEnv) (retryable : Option Retryable)
    (r : ClassifyResult) : ClassifyResult :=
  match retryable with
  | none => r
  | some rt =>
    let r1 :=
      if 0 < rt.gasLimit ∧ rt.gasLimit < 100000 then
        (if r.failureAt = "UNKNOWN" then { r with failureReason := "LOW_GAS_LIMIT" } else r)
      else r
    let r2 :=
      if 0 < rt.l2CallValue ∧ rt.l2CallValue < 1000 then
        (if r1.failureAt = "UNKNOWN" then { r1 with failureReason := "LOW_SUBMISSION_COST" } else r1)
      else r1
    if 0 < rt.maxFeePerGas then
      match env.avgBaseFee with
      | some avg =>
        if 0 < avg then
          -- threshold = avgBaseFee * 12n / 10n (BigInt floor division)
          (if rt.maxFeePerGas < avg * 12 / 10 then
            (if r2.failureAt = "UNKNOWN" then { r2 with failureReason := "LOW_GAS_PRICE" } else r2)
          else r2)
        else r2
      | none => r2
    else r2

/-- Block 3: lifecycle events.  The first `Redeemed` event decides
AUTO vs MANUAL by absolute block distance from the `TicketCreated` event;
then the redeem transaction receipt is fetched and may flip the result to
`L2_EXECUTION`. -/
def stepLifecycle (env : ClassifyEnv) (detection : Detection)
    (retryableLifecycle : Option Lifecycle) (r : ClassifyResult) : ClassifyResult :=
  match retryableLifecycle with
  | none => r
  | some lc =>
    if lc.events ≠ [] then
      match lc.events.filter (fun e => e.name == "Redeemed") with
      | [] => r
      | re0 :: _ =>
        let r1 :=
          match lc.events.find? (fun e => e.name == "TicketCreated") with
          | some c =>
            if (re0.blockNumber - c.blockNumber).natAbs ≤ 50 then
              { r with failureAt := "AUTO_REDEEM" }
            else
              { r with failureAt := "MANUAL_REDEEM" }
          | none => { r with failureAt := "MANUAL_REDEEM" }
        match env.redeemReceiptStatus with
        | Except.error _ => r1
        | Except.ok txr =>
          if txr = some 0 then
            { r1 with failureReason := "LOGIC_REVERT" }
          else
            match detection.l2Receipt with
            | some rc2 =>
              if rc2.status = 0 then
                { r1 with failureAt := "L2_EXECUTION", failureReason := "LOGIC_REVERT" }
              else r1
            | none => r1
    else r

/-- The debug-trace analysis inside block 4 (only entered when the L2
receipt is reverted). -/
def stepTrace (env : ClassifyEnv) (r0 : ClassifyResult) : ClassifyResult :=
  match env.debugTrace with
  | Except.error _ => r0
  | Except.ok none => r0
  | Except.ok (some dt) =>
    let ra :=
      match dt.error with
      | some em =>
        let eml := jsToLower em
        if strContains eml "out of gas" then { r0 with failureReason := "OUT_OF_GAS" }
        else if strContains eml "revert" then { r0 with failureReason := "LOGIC_REVERT" }
        else r0
      | none => r0
    match dt.raw with
    | some raw =>
      if strContains (jsToLower raw) "08c379a0" then
        let rb := { ra with failureReason := "LOGIC_REVERT" }
        match env.cachedRevertMsg with
        | some m => { rb with failureMessage := some m }
        | none =>
          -- payload = '0x' + raw-without-0x, first 4 bytes stripped
          let stripped := if jsStartsWith raw "0x" then String.mk (raw.data.drop 2) else raw
          let payload := "0x" ++ String.mk (stripped.data.drop 8)
          match env.abiDecodeString payload with
          | some d => if d ≠ "" then { rb with failureMessage := some d } else rb
          | none => rb
      else ra
    | none => ra

/-- Block 4: the L2 receipt indicates execution failure.  After the trace
analysis, if the reason is still `UNKNOWN`, the 99%-of-gas-limit heuristic
runs (the float comparison `gasUsed/gasLimit >= 0.99` modelled exactly),
falling back to an `eth_call` probe. -/
def stepL2 (env : ClassifyEnv) (detection : Detection) (r : ClassifyResult) : ClassifyResult :=
  match detection.l2Receipt with
  | none => r
  | some rc =>
    if rc.status = 0 then
      let r1 := stepTrace env { r with failureAt := "L2_EXECUTION" }
      if r1.failureReason = "UNKNOWN" then
        -- `gasUsed ? BigInt(gasUsed) : null` — a zero field is falsy
        if rc.gasUsed.getD 0 ≠ 0 ∧ rc.gasLimit.getD 0 ≠ 0 then
          (if 99 * rc.gasLimit.getD 0 ≤ 100 * rc.gasUsed.getD 0 then
            { r1 with failureReason := "OUT_OF_GAS" }
          else
            { r1 with failureReason := "LOGIC_REVERT" })
        else
          match env.l2Tx with
          | Except.error _ => r1
          | Except.ok false => r1
          | Except.ok true =>
            match env.l2CallError with
            | none => r1
            | some msg =>
              let m := jsToLower msg
              if strContains m "out of gas" then { r1 with failureReason := "OUT_OF_GAS" }
              else if strContains m "revert" then { r1 with failureReason := "LOGIC_REVERT" }
              else r1
      else r1
    else r

/-- Block 5: a retryable with no L2 execution is a presumed auto-redeem
failure. -/
def stepFinal (retryable : Option Retryable) (r : ClassifyResult) : ClassifyResult :=
  if r.failureAt = "UNKNOWN" ∧ retryable.isSome then
    let r1 := { r with failureAt := "AUTO_REDEEM" }
    if r1.failureReason = "UNKNOWN" then { r1 with failureReason := "LOW_SUBMISSION_COST" } else r1
  else r

/-- `classifyFailureDetailed(detection, retryable, l2TraceInfo,
retryableLifecycle)` — the five mutation blocks in source order
(`l2TraceInfo` and `timings` do not influence the result fields and are
not modelled). -/
def classifyFailureDetailed (env : ClassifyEnv) (detection : Detection)
    (retryable : Option Retryable) (retryableLifecycle : Option Lifecycle) : ClassifyResult :=
  stepFinal retryable
    (stepL2 env detection
      (stepLifecycle env detection retryableLifecycle
        (stepRetryable env retryable
          (stepL1 detection classifyInit))))

/-! ### Lifecycle computation (src/server.js, computeRetryableLifecycle) -/

/-- The indexed ticket row fields `computeRetryableLifecycle` reads. -/
structure TicketRow where
  created_at : Nat
  block_number : Int
  deriving DecidableEq, Repr

/-- `createdAtMs = ticket ? (ticket.created_at || Date.now()) : Date.now()`
(`nowMs` is `Date.now()`; `|| ` makes a zero timestamp fall back too). -/
def createdAtMsOf (nowMs : Nat) (ticket : Option TicketRow) : Nat :=
  match ticket with
  | some t => if t.created_at ≠ 0 then t.created_at else nowMs
  | none => nowMs

/-- Result of `computeRetryableLifecycle` (the `educationalNotes` prose is
presentation-only and omitted). -/
structure LifecycleDetails where
  createdAt : Nat
  autoRedeemWindowSec : Nat
  autoRedeemDeadline : Nat
  autoRedeemExpired : Bool
  autoRedeemAttempted : Bool
  autoRedeemSucceeded : Bool
  manualRedeemWindowSec : Nat
  manualRedeemDeadline : Nat
  manualRedeemExpired : Bool
  manualRedeemAttempted : Bool
  manualRedeemSucceeded : Bool
  lifetimeExtensions : Nat
  status : String
  deriving DecidableEq, Repr

/-- `computeRetryableLifecycle(ticket, lifecycleEvents)` at wall clock
`nowMs`.  A `Redeemed` event within 50 blocks of the ticket creation block
sets the auto flags, a later one the manual flags; `status` tests
expiry FIRST, so an expired ticket is `EXPIRED` even when redeemed. -/
def computeRetryableLifecycle (nowMs : Nat) (ticket : Option TicketRow)
    (lifecycleEvents : Option Lifecycle) : LifecycleDetails :=
  let createdAtMs := createdAtMsOf nowMs ticket
  let createdAtSec := createdAtMs / 1000
  let now := nowMs / 1000
  let autoRedeemDeadline := createdAtSec + 3600
  let autoRedeemExpired := autoRedeemDeadline < now
  let manualRedeemDeadline := createdAtSec + 7 * 86400
  let manualRedeemExpired := manualRedeemDeadline < now
  let ticketBlock : Int := match ticket with | some t => t.block_number | none => 0
  let events := match lifecycleEvents with | some lc => lc.events | none => []
  let autoRedeemSucceeded :=
    events.any (fun e => e.name == "Redeemed" && decide (e.blockNumber - ticketBlock ≤ 50))
  let manualRedeemSucceeded :=
    events.any (fun e => e.name == "Redeemed" && !decide (e.blockNumber - ticketBlock ≤ 50))
  let extendedCount := events.countP (fun e => e.name == "LifetimeExtended")
  { createdAt := createdAtMs
    autoRedeemWindowSec := 3600
    autoRedeemDeadline := autoRedeemDeadline
    autoRedeemExpired := autoRedeemExpired
    autoRedeemAttempted := autoRedeemSucceeded
    autoRedeemSucceeded := autoRedeemSucceeded
    manualRedeemWindowSec := 7 * 86400
    manualRedeemDeadline := manualRedeemDeadline
    manualRedeemExpired := manualRedeemExpired
    manualRedeemAttempted := manualRedeemSucceeded
    manualRedeemSucceeded := manualRedeemSucceeded
    lifetimeExtensions := extendedCount
    status :=
      if manualRedeemExpired then "EXPIRED"
      else if manualRedeemSucceeded then "REDEEMED"
      else if autoRedeemSucceeded then "AUTO_REDEEMED"
      else "PENDING" }

/-! ### Causality analyzer (src/causalityAnalyzer.js) -/

/-- One entry of `causality.recommendations` (the `reasoning` prose is
omitted; `current`/`suggested` keep their exact string values). -/
structure Recommendation where
  priority : String
  action : String
  current : Option String := none
  suggested : Option String := none
  deriving DecidableEq, Repr

/-- The fields of the causality object the claims are about (`l1Params`,
`l2Impact` and the `rootCause`/`humanMessage` prose are diagnostic
payloads; the prose is tracked only through `suggestedMax` and presence
flags below). `chain` is `none` where the source leaves it `null`. -/
structure Causality where
  chain : Option String := none
  causalityType : Option String := none
  rootCausePresent : Bool := false
  suggestedMax : Option Nat := none
  suggestedPct : Option Int := none
  recommendations : List Recommendation := []
  deriving DecidableEq, Repr

/-- `Math.ceil(num/den)` for `den > 0`, exactly. -/
def jsMathCeilDiv (num : Int) (den : Int) : Int :=
  -(Int.fdiv (-num) den)

/-- `String(Number(m) * 1.5)` for the even/odd integer cases that arise
(exact for the magnitudes involved). -/
def jsTimes1p5String (m : Nat) : String :=
  if m % 2 = 0 then toString (3 * m / 2) else toString (3 * m / 2) ++ ".5"

/-- `analyzeCrossChainCausality(detection, retryable, l2Receipt,
failureReason, failureMessage)` — a pure function; `detection` and
`failureMessage` do not influence the modelled fields.  The four
root-cause blocks run in source order; their conditions are mutually
exclusive, and without an L2 revert or without a retryable the function
returns early with `chain` still null. -/
def analyzeCrossChainCausality (_detection : Detection) (retryable : Option Retryable)
    (l2Receipt : Option Receipt) (failureReason : String)
    (_failureMessage : Option String) : Causality :=
  match l2Receipt with
  | none => {}
  | some rc =>
    if rc.status ≠ 0 then {}
    else
      match retryable with
      | none => {}
      | some rt =>
        -- `l2Receipt.gasUsed ? BigInt(l2Receipt.gasUsed) : null`
        let gasUsed : Option Nat := if rc.gasUsed.getD 0 ≠ 0 then some (rc.gasUsed.getD 0) else none
        let gasLimit : Option Nat := if rc.gasLimit.getD 0 ≠ 0 then some (rc.gasLimit.getD 0) else none
        let l1MaxGas := rt.gasLimit
        let l1SubmissionCost := rt.l2CallValue
        -- ROOT CAUSE 1: OUT_OF_GAS
        let c1 : Causality :=
          if failureReason = "OUT_OF_GAS" then
            let suggestedMax : Option Nat :=
              match gasUsed with
              | some g => if 0 < l1MaxGas then some (g + 150000) else none
              | none => none
            let suggestedPct : Option Int :=
              match gasUsed with
              | some g =>
                if 0 < l1MaxGas then
                  some (jsMathCeilDiv (((g : Int) - (l1MaxGas : Int)) * 100) (l1MaxGas : Int))
                else none
              | none => none
            { chain := some "L1_CAUSED"
              causalityType := some "INSUFFICIENT_GAS"
              rootCausePresent := true
              suggestedMax := suggestedMax
              suggestedPct := suggestedPct
              recommendations :=
                [{ priority := "CRITICAL", action := "Increase L1 maxGas parameter"
                   current := some (toString l1MaxGas)
                   suggested := some (match suggestedMax with
                     | some s => toString s
                     | none => jsTimes1p5String l1MaxGas) },
                 { priority := "CRITICAL", action := "Estimate actual gas needed (local run)"
                   suggested := some (match suggestedMax with
                     | some s => toString s
                     | none => toString (gasUsed.getD 0 + 150000)) }] }
          else {}
        -- ROOT CAUSE 2: LOW_SUBMISSION_COST (both branches double the cost)
        let c2 : Causality :=
          if failureReason = "LOW_SUBMISSION_COST" then
            { c1 with
              chain := some "L1_CAUSED"
              causalityType := some "LOW_SUBMISSION_COST"
              rootCausePresent := true
              recommendations := c1.recommendations ++
                [{ priority := "CRITICAL", action := "Increase L1 submissionCost (l2CallValue)"
                   current := some (toString l1SubmissionCost)
                   suggested := some (toString (2 * l1SubmissionCost)) },
                 { priority := "HIGH", action := "Check current L2 gas prices" }] }
          else c1
        -- ROOT CAUSE 3: LOGIC_REVERT
        let c3 : Causality :=
          if failureReason = "LOGIC_REVERT" then
            { c2 with
              chain := some "L2_CAUSED"
              causalityType := some "LOGIC_ERROR"
              rootCausePresent := true
              recommendations := c2.recommendations ++
                [{ priority := "HIGH", action := "Review L2 contract logic" },
                 { priority := "HIGH", action := "Verify L1 calldata" },
                 { priority := "MEDIUM", action := "Check contract preconditions" }] }
          else c2
        -- ROOT CAUSE 4: high utilization with reason UNKNOWN
        -- (`utilization > 0.95` modelled exactly as 20*gasUsed > 19*maxGas;
        -- the suggested string `String(Number(l1MaxGas) * 1.3)` is a float
        -- rendering not relied on by any claim, modelled as 13*m/10)
        if 0 < l1MaxGas ∧ 0 < gasLimit.getD 0 ∧ 0 < gasUsed.getD 0 then
          (if 19 * l1MaxGas < 20 * gasUsed.getD 0 ∧ failureReason = "UNKNOWN" then
            { c3 with
              chain := some "L1_CAUSED"
              causalityType := some "PARAMETER_MISMATCH"
              rootCausePresent := true
              recommendations := c3.recommendations ++
                [{ priority := "MEDIUM", action := "Increase L1 maxGas safety margin"
                   current := some (toString l1MaxGas)
                   suggested := some (toString (13 * l1MaxGas / 10)) }] }
          else c3)
        else c3

/-! ### Ledger query gateway (src/arbitrum.js, findTxOnProviders)

Each layer lookup is raced against a 5-second timer by `callWithTimeout`;
its settled outcome (via `Promise.allSettled`) is either a fulfilled
optional receipt or a rejection message (a timeout rejects with
`"timeout"`).  The embedding takes the two settled outcomes as inputs; the
function is total — the source never throws, the wrapper catch being
unreachable past `allSettled`. -/

/-- `RPC_TIMEOUT_MS` in `findTxOnProviders`. -/
def RPC_TIMEOUT_MS : Nat := 5000

/-- The object `findTxOnProviders` returns.  `foundOn` starts `null` and is
replaced by `'unknown'` at the end if still unset; `errors` collects one
`(provider, message)` entry per rejected layer. -/
structure LocateResult where
  txHash : String
  foundOn : Option String
  l1Receipt : Option Receipt
  l2Receipt : Option Receipt
  errors : List (String × String)
  deriving DecidableEq, Repr

/-- `findTxOnProviders(txHash)` on settled lookup outcomes `r1` (L1) and
`r2` (L2). -/
def findTxOnProviders (txHash : String)
    (r1 r2 : Except String (Option Receipt)) : LocateResult :=
  let out0 : LocateResult := ⟨txHash, none, none, none, []⟩
  let out1 :=
    match r1 with
    | Except.ok (some rc) =>
      { out0 with l1Receipt := some rc
                  foundOn := some (if out0.foundOn.isSome then "both" else "L1") }
    | Except.ok none => out0
    | Except.error m => { out0 with errors := out0.errors ++ [("L1", m)] }
  let out2 :=
    match r2 with
    | Except.ok (some rc) =>
      { out1 with l2Receipt := some rc
                  foundOn := some (if out1.foundOn.isSome then "both" else "L2") }
    | Except.ok none => out1
    | Except.error m => { out1 with errors := out1.errors ++ [("L2", m)] }
  if out2.foundOn.isSome then out2 else { out2 with foundOn := some "unknown" }

/-! ### Derived views used by the statements and proofs -/

/-- Does the lifecycle data contain a `Redeemed` event? (`stepLifecycle`
acts exactly when this is true.) -/
def hasRedeemEvent (lc : Option Lifecycle) : Bool :=
  match lc with
  | some l => l.events.any (fun e => e.name == "Redeemed")
  | none => false

/-- The rows `indexRange` builds from one receipt (one per parsed
creation log). -/
def rowsOfReceipt (nowMs : Nat) (rc : IndexReceipt) : List TicketDbRow :=
  rc.logs.filterMap (fun l => l.map (rowOfCreation nowMs rc))

/-- The rows `indexRange` builds from one block's transactions. -/
def rowsOfTxs (nowMs : Nat) : List IndexTx → List TicketDbRow
  | [] => []
  | tx :: txs =>
    (match tx.receipt with
     | none => []
     | some rc => rowsOfReceipt nowMs rc) ++ rowsOfTxs nowMs txs

/-- The rows `indexRange` builds from a list of block numbers. -/
def rowsOfBlocks (nowMs : Nat) (provider : Nat → Option (List IndexTx)) :
    List Nat → List TicketDbRow
  | [] => []
  | b :: bs =>
    (match provider b with
     | none => []
     | some txs => rowsOfTxs nowMs txs) ++ rowsOfBlocks nowMs provider bs

/-- Insert a list of rows in order, counting one per row (ignored or not),
exactly as the `indexRange` loops do. -/
def insertAllCount (rows : List TicketDbRow) (acc : List TicketDbRow × Nat) :
    List TicketDbRow × Nat :=
  rows.foldl (fun acc row => (insertOrIgnoreTicket acc.1 row, acc.2 + 1)) acc

/-- Insert a list of rows in order (table part only). -/
def insertFold (rows : List TicketDbRow) (tbl : List TicketDbRow) : List TicketDbRow :=
  rows.foldl insertOrIgnoreTicket tbl

/-- Is a ticket id present in the table? -/
def hasKey (tbl : List TicketDbRow) (k : String) : Bool :=
  tbl.any (fun r => r.ticket_id == k)

/-- Number of parsed `RetryableTicketCreated` logs in a receipt. -/
def creationLogsOfReceipt (rc : IndexReceipt) : Nat :=
  rc.logs.countP (fun l => l.isSome)

/-- Number of parsed creation logs in the scanned range — exactly the
value `indexRange` returns as `results.inserted`. -/
def creationLogCount (provider : Nat → Option (List IndexTx)) (startBlock endBlock : Nat) : Nat :=
  ((List.range' startBlock (endBlock + 1 - startBlock)).map
    (fun b =>
      match provider b with
      | none => 0
      | some txs =>
        (txs.map
          (fun tx =>
            match tx.receipt with
            | none => 0
            | some rc => creationLogsOfReceipt rc)).sum)).sum

/-- Overwrite the `created_at` stamp of a row (a re-scan builds the same
rows up to this stamp). -/
def setCreatedAt (t : Nat) (r : TicketDbRow) : TicketDbRow :=
  { r with created_at := t }

/-! Concrete inputs used in counterexamples and witnesses. -/

/-- Environment with a null debug trace and all other calls failing —
"no available debug trace". -/
def traceNoneEnv : ClassifyEnv :=
  { debugTrace := Except.ok none }

/-- The spec scenario ticket: gasCeiling 90000, submissionValue 500. -/
def oogTicket : Retryable := ⟨90000, 500, 0⟩

/-- The spec scenario detection: an L2 receipt with status 0,
gasUsed 89000, gasLimit 90000 (and no L1 receipt). -/
def oogDetection : Detection :=
  ⟨none, some ⟨0, some 89000, some 90000, "0xl2"⟩⟩

/-- A lifecycle with a creation at block 0, one redeem 10 blocks later and
one 100 blocks later. -/
def mixedRedeemLifecycle : Lifecycle :=
  ⟨[⟨"TicketCreated", 0, "0xtc"⟩, ⟨"Redeemed", 10, "0xr1"⟩, ⟨"Redeemed", 100, "0xr2"⟩]⟩

/-- A sample parsed creation event. -/
def sampleCreation : CreationEvent :=
  ⟨"42", "0xfrom", "0xto", "0", "100000", "1", "0x"⟩

/-- Chain data with a single creation log in block 0. -/
def sampleProvider : Nat → Option (List IndexTx) := fun b =>
  if b = 0 then some [⟨some ⟨"0xl1", 0, [some sampleCreation]⟩⟩] else none

/-! ### Shared list lemmas -/

theorem find?_append_of_none {α : Type} {p : α → Bool} {xs ys : List α}
    (h : xs.find? p = none) : (xs ++ ys).find? p = ys.find? p := by
  induction xs with
  | nil => simp
  | cons a l ih =>
    by_cases hp : p a = true
    · rw [List.find?_cons_of_pos _ hp] at h
      exact absurd h (by simp)
    · rw [List.find?_cons_of_neg _ hp] at h
      rw [List.cons_append, List.find?_cons_of_neg _ hp]
      exact ih h

theorem find?_filter_not {α : Type} {p : α → Bool} (l : List α) :
    (l.filter (fun r => ¬ p r)).find? p = none := by
  induction l with
  | nil => simp
  | cons a l ih =>
    by_cases hp : p a
    · simp [List.filter, hp, ih]
    · simp [List.filter, hp, List.find?, ih]

theorem countP_filter_not {α : Type} {p : α → Bool} (l : List α) :
    (l.filter (fun r => ¬ p r)).countP p = 0 := by
  induction l with
  | nil => simp
  | cons a l ih =>
    by_cases hp : p a
    · simp [List.filter, hp, ih]
    · simp [List.filter, List.countP_cons, hp, ih]

/-! ### Claim C1: settlement write semantics -/

/-- C1 counterexample: two successive settlement writes for ticket `0x1`
((hash 0xaaa, block 100) then (hash 0xbbb, block 200)) leave the SECOND
write in the store: `findL2ForTicket` returns (0xbbb, 200), not the first
write (0xaaa, 100) as the claim states. -/
theorem c1_counterexample :
    findL2ForTicket (insertMapping 2 (insertMapping 1 [] "0x1" "0xaaa" 100).1 "0x1" "0xbbb" 200).1 "0x1"
        = some ⟨"0x1", "0xbbb", 200, 2⟩ ∧
      findL2ForTicket (insertMapping 2 (insertMapping 1 [] "0x1" "0xaaa" 100).1 "0x1" "0xbbb" 200).1 "0x1"
        ≠ some ⟨"0x1", "0xaaa", 100, 1⟩ := by
  exact ⟨by decide, by decide⟩

/-- C1 (amended): settlement recording is LAST-write-wins —
`insertTicketToL2` is `INSERT OR REPLACE`, so after two successive
settlement writes (h1, b1) then (h2, b2) for the same ticket identifier the
stored settlement returned by `findL2ForTicket` is (h2, b2); exactly one
settlement row exists for the identifier, and both writes report success
(no exception). -/
theorem insertMapping_last_write_wins (tbl : List L2MapRow) (t h1 h2 : String)
    (b1 b2 : Int) (n1 n2 : Nat) :
    (insertMapping n1 tbl t h1 b1).2 = true ∧
    (insertMapping n2 (insertMapping n1 tbl t h1 b1).1 t h2 b2).2 = true ∧
    findL2ForTicket (insertMapping n2 (insertMapping n1 tbl t h1 b1).1 t h2 b2).1 t
      = some ⟨t, h2, b2, n2⟩ ∧
    ((insertMapping n2 (insertMapping n1 tbl t h1 b1).1 t h2 b2).1.countP
      (fun r => r.ticket_id == t)) = 1 := by
  refine ⟨rfl, rfl, ?_, ?_⟩
  · show findL2ForTicket
      (insertOrReplaceL2 (insertMapping n1 tbl t h1 b1).1 ⟨t, h2, b2, n2⟩) t = _
    unfold findL2ForTicket insertOrReplaceL2
    rw [find?_append_of_none (find?_filter_not _)]
    simp [List.find?]
  · show ((insertOrReplaceL2 (insertMapping n1 tbl t h1 b1).1 ⟨t, h2, b2, n2⟩).countP
      (fun r => r.ticket_id == t)) = 1
    unfold insertOrReplaceL2
    rw [List.countP_append, countP_filter_not]
    simp [List.countP_cons]

/-! ### Claim C6: EXPIRED lifecycle state -/

/-- C6 counterexample: a ticket created at ms 1000 with a recorded
`Redeemed` event 10 blocks after creation is classified `EXPIRED` once the
7-day deadline has passed (wall clock 604803000 ms) — the claim says a
ticket with a recorded redemption is never `EXPIRED`. -/
theorem c6_counterexample :
    (computeRetryableLifecycle 604803000 (some ⟨1000, 0⟩)
        (some ⟨[⟨"Redeemed", 10, "0xr"⟩]⟩)).status = "EXPIRED" ∧
      (computeRetryableLifecycle 604803000 (some ⟨1000, 0⟩)
        (some ⟨[⟨"Redeemed", 10, "0xr"⟩]⟩)).autoRedeemSucceeded = true := by
  exact ⟨by decide, by decide⟩

/-- C6 (amended): the derived state is `EXPIRED` exactly when wall-clock
time exceeds the 7-day manual-redeem deadline — regardless of any recorded
redemption event: expiry is tested first, so a redeemed ticket past the
deadline is still `EXPIRED`. -/
theorem computeRetryableLifecycle_expired_iff (nowMs : Nat) (ticket : Option TicketRow)
    (lc : Option Lifecycle) :
    (computeRetryableLifecycle nowMs ticket lc).status = "EXPIRED" ↔
      createdAtMsOf nowMs ticket / 1000 + 7 * 86400 < nowMs / 1000 := by
  by_cases h : createdAtMsOf nowMs ticket / 1000 + 7 * 86400 < nowMs / 1000
  · simp [computeRetryableLifecycle, h]
  · simp only [computeRetryableLifecycle, h, if_false, iff_false]
    repeat' split
    all_goals simp

/-! ### Claim C9: causality chain values -/

/-- C9 counterexample: with no L2 receipt the analyzer returns early and
`chain` is null — not one of the three values `L1_CAUSED`, `L2_CAUSED`,
`UNKNOWN` the claim allows (the string `UNKNOWN` is never assigned at
all). -/
theorem c9_counterexample :
    (analyzeCrossChainCausality ⟨none, none⟩ none none "UNKNOWN" none).chain = none ∧
      (analyzeCrossChainCausality ⟨none, none⟩ none none "UNKNOWN" none).chain ≠ some "L1_CAUSED" ∧
      (analyzeCrossChainCausality ⟨none, none⟩ none none "UNKNOWN" none).chain ≠ some "L2_CAUSED" ∧
      (analyzeCrossChainCausality ⟨none, none⟩ none none "UNKNOWN" none).chain ≠ some "UNKNOWN" := by
  exact ⟨by decide, by decide, by decide, by decide⟩

/-- C9 (amended): the analyzer is a pure function (modelled as such — it
performs no I/O), and for every input its `chain` field is null,
`L1_CAUSED`, or `L2_CAUSED`; the value `UNKNOWN` is never produced. -/
theorem analyzeCrossChainCausality_chain_values (det : Detection) (rt : Option Retryable)
    (rc : Option Receipt) (fr : String) (fm : Option String) :
    (analyzeCrossChainCausality det rt rc fr fm).chain = none ∨
      (analyzeCrossChainCausality det rt rc fr fm).chain = some "L1_CAUSED" ∨
      (analyzeCrossChainCausality det rt rc fr fm).chain = some "L2_CAUSED" := by
  unfold analyzeCrossChainCausality
  repeat' split
  all_goals simp_all
  all_goals repeat' split
  all_goals simp_all

/-! ### Claim C5: Stylus revert decoding -/

theorem parseIntHex_0x (X : String) :
    parseIntHex ("0x" ++ X) = parseIntHexCore X.data none := by
  have hdata : ("0x" ++ X).data = '0' :: 'x' :: X.data := by
    rw [String.data_append]
    rfl
  have hstart : jsStartsWith ("0x" ++ X) "0x" = true := by
    simp [jsStartsWith, hdata, listStarts]
  simp only [parseIntHex]
  rw [if_pos hstart, hdata]
  rfl

/-- On any input that passes the empty-data check, fails the Panic-selector
test, passes the Error-selector test, whose offset word parses to the
standard `0x20`, and whose total length is the 202 characters of a
one-data-word payload, the `Error(string)` branch reads its length word
from the data word (one ABI word past the real length word) and then
slices the message from position 202 — the end of the string — so the
decoded reason is empty whatever the data word holds. -/
theorem decodeStylusPanic_error_of (s : String)
    (hne1 : s ≠ "") (hne2 : s ≠ "0x")
    (hsw1 : jsStartsWith s "0x4e487b71" = false)
    (hsw2 : jsStartsWith s "0x08c379a0" = true)
    (hoff : parseIntHex ("0x" ++ jsSlice s 10 74) = some 32)
    (hlen : s.data.length = 202) :
    decodeStylusPanic s = ⟨"Error", "", none⟩ := by
  have hdrop : s.data.drop (74 + 32 * 2 + 64) = [] :=
    List.drop_eq_nil_of_le (by rw [hlen])
  unfold decodeStylusPanic
  rw [if_neg (not_or.mpr ⟨hne1, hne2⟩), if_neg (by rw [hsw1]; exact Bool.false_ne_true),
    if_pos hsw2, hoff]
  dsimp only
  rcases hp : parseIntHex ("0x" ++ jsSlice s (74 + 32 * 2) (74 + 32 * 2 + 64)) with _ | len
  case none => dsimp only
  case some =>
    have hsl : jsSlice s (74 + 32 * 2 + 64) (74 + 32 * 2 + 64 + len * 2) = "" := by
      simp only [jsSlice, hdrop, List.take_nil]
    dsimp only
    rw [hsl]
    rfl

set_option maxRecDepth 16000 in
/-- Every well-formed ABI `Error(string)` payload with a message of at
most 32 bytes satisfies the hypotheses of `decodeStylusPanic_error_of`,
so its decoded reason is the empty string, not the message. -/
theorem decodeStylusPanic_errorPayload (msg : List Nat) (hlen32 : msg.length ≤ 32)
    (hbytes : ∀ b ∈ msg, b < 256) :
    decodeStylusPanic (errorPayloadHex msg) = ⟨"Error", "", none⟩ := by
  have hbyte2 : ∀ b, b < 256 → ((padStartZeros 2 (toHexString b)).data).length = 2 := by decide
  have hw2all : ∀ l, l < 33 → ((padStartZeros 64 (toHexString l)).data).length = 64 := by decide
  have hmd : ∀ l : List Nat, (∀ b ∈ l, b < 256) →
      ((l.map fun b => (padStartZeros 2 (toHexString b)).data).flatten).length = 2 * l.length := by
    intro l
    induction l with
    | nil => intro _; rfl
    | cons b bs ih =>
      intro hl
      simp only [List.map_cons, List.flatten_cons, List.length_append, List.length_cons]
      rw [hbyte2 b (hl b (List.mem_cons_self b bs)),
        ih (fun x hx => hl x (List.mem_cons_of_mem b hx))]
      ring
  have hd1 : (errorPayloadHex msg).data
      = ("0x08c379a0" : String).data ++ ((padStartZeros 64 (toHexString 32)).data
        ++ ((padStartZeros 64 (toHexString msg.length)).data
        ++ (((msg.map fun b => (padStartZeros 2 (toHexString b)).data).flatten)
        ++ List.replicate (64 - 2 * msg.length) '0'))) := by
    simp only [errorPayloadHex, String.data_append, List.append_assoc]
  have hc0 : (("0x08c379a0" : String).data).length = 10 := by decide
  have hw1 : ((padStartZeros 64 (toHexString 32)).data).length = 64 := by decide
  have hw2 : ((padStartZeros 64 (toHexString msg.length)).data).length = 64 :=
    hw2all msg.length (by omega)
  have hmdl : ((msg.map fun b => (padStartZeros 2 (toHexString b)).data).flatten).length
      = 2 * msg.length := hmd msg hbytes
  have hzd : (List.replicate (64 - 2 * msg.length) '0').length = 64 - 2 * msg.length :=
    List.length_replicate _ _
  have hslen : (errorPayloadHex msg).data.length = 202 := by
    rw [hd1]
    simp only [List.length_append, hc0, hw1, hw2, hmdl, hzd]
    omega
  obtain ⟨tail, htail⟩ : ∃ tail, (errorPayloadHex msg).data
      = '0' :: 'x' :: '0' :: '8' :: 'c' :: '3' :: '7' :: '9' :: 'a' :: '0' :: tail :=
    ⟨_, by rw [hd1]; rfl⟩
  have hne1 : errorPayloadHex msg ≠ "" := by
    intro h
    rw [h] at hslen
    exact absurd hslen (by decide)
  have hne2 : errorPayloadHex msg ≠ "0x" := by
    intro h
    rw [h] at hslen
    exact absurd hslen (by decide)
  have hsw1 : jsStartsWith (errorPayloadHex msg) "0x4e487b71" = false := by
    simp only [jsStartsWith, htail]
    simp [listStarts]
  have hsw2 : jsStartsWith (errorPayloadHex msg) "0x08c379a0" = true := by
    simp only [jsStartsWith, htail]
    simp [listStarts]
  have hoff : parseIntHex ("0x" ++ jsSlice (errorPayloadHex msg) 10 74) = some 32 := by
    rw [parseIntHex_0x]
    have hsl : (jsSlice (errorPayloadHex msg) 10 74).data
        = (padStartZeros 64 (toHexString 32)).data := by
      show (((errorPayloadHex msg).data.drop 10).take (74 - 10)) = _
      rw [hd1, List.drop_left' hc0]
      exact List.take_left' hw1
    rw [hsl]
    decide
  exact decodeStylusPanic_error_of (errorPayloadHex msg) hne1 hne2 hsw1 hsw2 hoff hslen

/-- C5 counterexample: the well-formed ABI encoding of `Error("AB")`
(selector `08c379a0`, offset word `0x20`, length word `2`, padded data
word `4142…`) decodes to reason `""`, not the encoded message `"AB"`, the
length word being read from the wrong offset — and the result is an
object, not the `null` the claim requires for undecodable inputs. -/
theorem c5_counterexample :
    decodeStylusPanic (errorPayloadHex [65, 66]) = ⟨"Error", "", none⟩ ∧
      utf8OfBytes [65, 66] = "AB" ∧
      (decodeStylusPanic (errorPayloadHex [65, 66])).reason ≠ "AB" := by
  exact ⟨by decide, by decide, by decide⟩

set_option maxRecDepth 8000 in
/-- C5 (amended): `decodeStylusPanic` never throws and never returns null —
every branch yields an object.  For every `Panic(uint256)` payload whose
code is one of the 13 table entries it returns exactly that table entry:
the code is the two-digit hex key of the payload's code, the reason is the
table's reason stored under that key, and `numeric` is the code.  For
EVERY well-formed ABI-encoded `Error(string)` payload with a message of at
most 32 bytes it returns code `Error` with an empty reason, not the
encoded message (the length word is read one ABI word past its actual
position, so the message is sliced from the end of the payload).  Any
other non-empty byte string matching neither selector yields the object
`(code: unknown, reason: Unknown revert format)` rather than null. -/
theorem decodeStylusPanic_behaviour :
    (∀ n ∈ [0x00, 0x01, 0x11, 0x12, 0x21, 0x22, 0x31, 0x32, 0x41, 0x51, 0x61, 0xfe, 0xff],
        decodeStylusPanic (panicPayloadHex n)
            = ⟨"0x" ++ padStartZeros 2 (toHexString n),
               (panicLookup ("0x" ++ padStartZeros 2 (toHexString n))).getD "", some n⟩ ∧
          (panicLookup ("0x" ++ padStartZeros 2 (toHexString n))).isSome = true) ∧
      (∀ msg : List Nat, msg.length ≤ 32 → (∀ b ∈ msg, b < 256) →
        decodeStylusPanic (errorPayloadHex msg) = ⟨"Error", "", none⟩) ∧
      (∀ s, jsStartsWith s "0x4e487b71" = false → jsStartsWith s "0x08c379a0" = false →
        s ≠ "" → s ≠ "0x" →
        decodeStylusPanic s = ⟨"unknown", "Unknown revert format", none⟩) := by
  refine ⟨by decide, ?_, ?_⟩
  · intro msg h1 h2
    exact decodeStylusPanic_errorPayload msg h1 h2
  · intro s h1 h2 h3 h4
    simp [decodeStylusPanic, h1, h2, h3, h4]

set_option maxRecDepth 8000 in
/-- C5 witness: the amended theorem applied at panic code `0x11`, at the
message bytes of `Error("AB")`, and at the unrecognized input
`0xdeadbeef`. -/
theorem decodeStylusPanic_behaviour_witness :
    decodeStylusPanic (panicPayloadHex 0x11)
        = ⟨"0x11", "Arithmetic underflow or overflow", some 0x11⟩ ∧
      decodeStylusPanic (errorPayloadHex [65, 66]) = ⟨"Error", "", none⟩ ∧
      decodeStylusPanic "0xdeadbeef" = ⟨"unknown", "Unknown revert format", none⟩ := by
  refine ⟨?_, ?_, ?_⟩
  · have h := (decodeStylusPanic_behaviour.1 0x11 (by decide)).1
    rw [h]
    decide
  · exact decodeStylusPanic_behaviour.2.1 [65, 66] (by decide) (by decide)
  · exact decodeStylusPanic_behaviour.2.2 "0xdeadbeef" (by decide) (by decide) (by decide)
      (by decide)

/-! ### Claim C7: gateway locate operation -/

/-- C7 (confirmed): `findTxOnProviders` is total on every pair of settled
lookup outcomes (the source function never throws: `Promise.allSettled`
absorbs per-layer rejections, each lookup being raced against the
`RPC_TIMEOUT_MS = 5000` ms timer of `callWithTimeout`).  A rejected or
timed-out layer contributes exactly its `(provider, message)` entry to
`errors` while the other layer's receipt is still returned, and `foundOn`
is `'both'` exactly when both lookups fulfilled with non-null receipts. -/
theorem findTxOnProviders_spec (tx : String) (r1 r2 : Except String (Option Receipt)) :
    ((findTxOnProviders tx r1 r2).foundOn = some "both" ↔
        (∃ a, r1 = Except.ok (some a)) ∧ (∃ b, r2 = Except.ok (some b))) ∧
      (findTxOnProviders tx r1 r2).l1Receipt
        = (match r1 with | Except.ok o => o | Except.error _ => none) ∧
      (findTxOnProviders tx r1 r2).l2Receipt
        = (match r2 with | Except.ok o => o | Except.error _ => none) ∧
      (findTxOnProviders tx r1 r2).errors
        = ((match r1 with
            | Except.error m => [("L1", m)]
            | Except.ok _ => ([] : List (String × String))) ++
           (match r2 with
            | Except.error m => [("L2", m)]
            | Except.ok _ => [])) ∧
      (findTxOnProviders tx r1 r2).foundOn.isSome = true ∧
      RPC_TIMEOUT_MS = 5000 := by
  rcases r1 with m1 | _ | a <;> rcases r2 with m2 | _ | b <;>
    simp [findTxOnProviders, RPC_TIMEOUT_MS]

/-! ### Claim C3: the out-of-gas spec scenario -/

/-- C3 counterexample: for the claimed input (ticket gasCeiling 90000,
submissionValue 500; L2 receipt status 0, gasUsed 89000, gasLimit 90000,
no debug trace) the classifier reason is `LOW_SUBMISSION_COST`, not
`OUT_OF_GAS`: the parameter heuristics set the reason first, and the
99%-of-ceiling check only runs while the reason is still `UNKNOWN`. -/
theorem c3_counterexample :
    classifyFailureDetailed traceNoneEnv oogDetection (some oogTicket) none
        = ⟨"L2_EXECUTION", "LOW_SUBMISSION_COST", none⟩ ∧
      (classifyFailureDetailed traceNoneEnv oogDetection (some oogTicket) none).failureReason
        ≠ "OUT_OF_GAS" := by
  exact ⟨by decide, by decide⟩

/-- C3 (amended): for that input the classifier returns location
`L2_EXECUTION` with reason `LOW_SUBMISSION_COST`; the causality
remediation for that reason suggests doubling the submission cost to 1000
(no gas-ceiling suggestion); the suggested ceiling
`gasUsed + 150000 = 239000` is produced exactly when the analyzer is given
reason `OUT_OF_GAS`. -/
theorem classify_oog_scenario :
    classifyFailureDetailed traceNoneEnv oogDetection (some oogTicket) none
        = ⟨"L2_EXECUTION", "LOW_SUBMISSION_COST", none⟩ ∧
      (analyzeCrossChainCausality oogDetection (some oogTicket) oogDetection.l2Receipt
          "LOW_SUBMISSION_COST" none).recommendations.map (fun r => r.suggested)
        = [some "1000", none] ∧
      (analyzeCrossChainCausality oogDetection (some oogTicket) oogDetection.l2Receipt
          "LOW_SUBMISSION_COST" none).suggestedMax = none ∧
      (analyzeCrossChainCausality oogDetection (some oogTicket) oogDetection.l2Receipt
          "OUT_OF_GAS" none).suggestedMax = some 239000 := by
  exact ⟨by decide, by decide, by decide, by decide⟩

/-! ### Classifier step lemmas -/

theorem stepRetryable_failureAt (env : ClassifyEnv) (rt : Option Retryable)
    (r : ClassifyResult) : (stepRetryable env rt r).failureAt = r.failureAt := by
  rcases rt with _ | rt
  · rfl
  · simp only [stepRetryable]
    repeat' split
    all_goals rfl

theorem stepTrace_failureAt (env : ClassifyEnv) (r : ClassifyResult) :
    (stepTrace env r).failureAt = r.failureAt := by
  simp only [stepTrace]
  repeat' split
  all_goals rfl

theorem stepL1_reverted (det : Detection) (r : ClassifyResult) (rc1 : Receipt)
    (h : det.l1Receipt = some rc1) (h0 : rc1.status = 0) :
    stepL1 det r = { r with failureAt := "L1_SUBMISSION", failureReason := "LOGIC_REVERT" } := by
  simp [stepL1, h, h0]

theorem stepL2_reverted_failureAt (env : ClassifyEnv) (det : Detection)
    (r : ClassifyResult) (rc2 : Receipt) (h : det.l2Receipt = some rc2)
    (h0 : rc2.status = 0) : (stepL2 env det r).failureAt = "L2_EXECUTION" := by
  simp only [stepL2, h, h0, if_pos]
  repeat' split
  all_goals simp [stepTrace_failureAt]

theorem stepL2_not_reverted (env : ClassifyEnv) (det : Detection) (r : ClassifyResult)
    (h : ∀ rc2, det.l2Receipt = some rc2 → rc2.status ≠ 0) :
    stepL2 env det r = r := by
  rcases hd : det.l2Receipt with _ | rc2
  · simp [stepL2, hd]
  · simp [stepL2, hd, h rc2 hd]

theorem stepLifecycle_no_redeem (env : ClassifyEnv) (det : Detection)
    (lc : Option Lifecycle) (r : ClassifyResult) (h : hasRedeemEvent lc = false) :
    stepLifecycle env det lc r = r := by
  rcases lc with _ | l
  · rfl
  · simp only [hasRedeemEvent, List.any_eq_false] at h
    have hf : l.events.filter (fun e => e.name == "Redeemed") = [] := by
      rw [List.filter_eq_nil_iff]
      intro a ha
      exact h a ha
    by_cases he : l.events = []
    · simp [stepLifecycle, he]
    · simp [stepLifecycle, he, hf]

theorem stepLifecycle_redeem_failureAt (env : ClassifyEnv) (det : Detection)
    (lc : Lifecycle) (r : ClassifyResult) (re0 : LifeEvent) (rest : List LifeEvent)
    (c : LifeEvent)
    (hf : lc.events.filter (fun e => e.name == "Redeemed") = re0 :: rest)
    (hc : lc.events.find? (fun e => e.name == "TicketCreated") = some c)
    (hl2 : ∀ rc2, det.l2Receipt = some rc2 → rc2.status ≠ 0) :
    (stepLifecycle env det (some lc) r).failureAt =
      if (re0.blockNumber - c.blockNumber).natAbs ≤ 50 then "AUTO_REDEEM"
      else "MANUAL_REDEEM" := by
  have he : lc.events ≠ [] := by
    intro h
    rw [h] at hf
    exact absurd hf (by simp)
  simp only [stepLifecycle, he, ne_eq, not_false_iff, if_true, hf, hc]
  rcases henv : env.redeemReceiptStatus with _ | txr <;> simp only [henv]
  · split <;> rfl
  · by_cases ht : txr = some 0
    · simp only [ht, if_true]
      split <;> rfl
    · simp only [ht, if_false]
      rcases hd : det.l2Receipt with _ | rc2 <;> simp only [hd]
      · split <;> rfl
      · simp only [hl2 rc2 hd, if_false]
        split <;> rfl

theorem stepLifecycle_redeem_mem (env : ClassifyEnv) (det : Detection)
    (lc : Lifecycle) (r : ClassifyResult) (h : hasRedeemEvent (some lc) = true)
    (hl2 : ∀ rc2, det.l2Receipt = some rc2 → rc2.status ≠ 0) :
    (stepLifecycle env det (some lc) r).failureAt = "AUTO_REDEEM" ∨
      (stepLifecycle env det (some lc) r).failureAt = "MANUAL_REDEEM" := by
  have he : lc.events ≠ [] := by
    intro hnil
    simp [hasRedeemEvent, hnil] at h
  rcases hfil : lc.events.filter (fun e => e.name == "Redeemed") with _ | ⟨re0, rest⟩
  · simp only [hasRedeemEvent, List.any_eq_true] at h
    obtain ⟨e, he1, he2⟩ := h
    have : e ∈ lc.events.filter (fun e => e.name == "Redeemed") :=
      List.mem_filter.2 ⟨he1, he2⟩
    rw [hfil] at this
    exact absurd this (by simp)
  · simp only [stepLifecycle, he, ne_eq, not_false_iff, if_true, hfil]
    rcases henv : env.redeemReceiptStatus with _ | txr <;> simp only [henv]
    · repeat' split
      all_goals simp
    · by_cases ht : txr = some 0
      · simp only [ht, if_true]
        repeat' split
        all_goals simp
      · simp only [ht, if_false]
        rcases hd : det.l2Receipt with _ | rc2 <;> simp only [hd]
        · repeat' split
          all_goals simp
        · simp only [hl2 rc2 hd, if_false]
          repeat' split
          all_goals simp

theorem stepFinal_of_ne (rt : Option Retryable) (r : ClassifyResult)
    (h : r.failureAt ≠ "UNKNOWN") : stepFinal rt r = r := by
  simp [stepFinal, h]

/-! ### Claim C2: L1 revert and location precedence -/

/-- C2 counterexample: with an L1 receipt of status 0 AND a reverted L2
receipt, the final location is `L2_EXECUTION`, not `L1_SUBMISSION`: the
L2 block overwrites the location unconditionally, so the pass is
last-match-wins rather than first-match-wins. -/
theorem c2_counterexample :
    (classifyFailureDetailed traceNoneEnv
        ⟨some ⟨0, none, none, "0xl1"⟩, some ⟨0, none, none, "0xl2"⟩⟩ none none).failureAt
        = "L2_EXECUTION" ∧
      (classifyFailureDetailed traceNoneEnv
        ⟨some ⟨0, none, none, "0xl1"⟩, some ⟨0, none, none, "0xl2"⟩⟩ none none).failureAt
        ≠ "L1_SUBMISSION" := by
  exact ⟨by decide, by decide⟩

/-- C2 (amended): when the L1 receipt exists with status 0, the reported
location is `L1_SUBMISSION` only if no later rule fires: a lifecycle
redeem event overwrites it to `AUTO_REDEEM`/`MANUAL_REDEEM`, and a
reverted L2 receipt overwrites it to `L2_EXECUTION` — the location pass is
last-match-wins, not first-match-wins. -/
theorem classify_l1_revert_location (env : ClassifyEnv) (det : Detection)
    (rt : Option Retryable) (lc : Option Lifecycle) (rc1 : Receipt)
    (h1 : det.l1Receipt = some rc1) (h0 : rc1.status = 0) :
    ((∀ rc2, det.l2Receipt = some rc2 → rc2.status ≠ 0) → hasRedeemEvent lc = false →
        (classifyFailureDetailed env det rt lc).failureAt = "L1_SUBMISSION") ∧
      (∀ rc2, det.l2Receipt = some rc2 → rc2.status = 0 →
        (classifyFailureDetailed env det rt lc).failureAt = "L2_EXECUTION") ∧
      ((∀ rc2, det.l2Receipt = some rc2 → rc2.status ≠ 0) → hasRedeemEvent lc = true →
        ((classifyFailureDetailed env det rt lc).failureAt = "AUTO_REDEEM" ∨
          (classifyFailureDetailed env det rt lc).failureAt = "MANUAL_REDEEM")) := by
  refine ⟨?_, ?_, ?_⟩
  · intro hl2 hno
    unfold classifyFailureDetailed
    rw [stepL1_reverted det classifyInit rc1 h1 h0,
      stepLifecycle_no_redeem env det lc _ hno,
      stepL2_not_reverted env det _ hl2,
      stepFinal_of_ne rt _ (by rw [stepRetryable_failureAt]; decide),
      stepRetryable_failureAt]
  · intro rc2 h2 hs
    unfold classifyFailureDetailed
    rw [stepFinal_of_ne rt _ (by rw [stepL2_reverted_failureAt env det _ rc2 h2 hs]; decide),
      stepL2_reverted_failureAt env det _ rc2 h2 hs]
  · intro hl2 hred
    rcases lc with _ | l
    · simp [hasRedeemEvent] at hred
    · unfold classifyFailureDetailed
      rcases stepLifecycle_redeem_mem env det l
          (stepRetryable env rt (stepL1 det classifyInit)) hred hl2 with hone | hone <;>
        rw [stepFinal_of_ne rt _ (by rw [stepL2_not_reverted env det _ hl2, hone]; decide),
          stepL2_not_reverted env det _ hl2, hone]
      · left; rfl
      · right; rfl

/-- C2 witness: the amended theorem applied to the concrete input of the
counterexample (L1 reverted, L2 reverted, no lifecycle data), second
conjunct. -/
theorem classify_l1_revert_location_witness :
    (classifyFailureDetailed traceNoneEnv
        ⟨some ⟨0, none, none, "0xw1"⟩, some ⟨0, none, none, "0xw2"⟩⟩ none none).failureAt
      = "L2_EXECUTION" := by
  exact (classify_l1_revert_location traceNoneEnv
      ⟨some ⟨0, none, none, "0xw1"⟩, some ⟨0, none, none, "0xw2"⟩⟩ none none
      ⟨0, none, none, "0xw1"⟩ rfl rfl).2.1 ⟨0, none, none, "0xw2"⟩ rfl rfl

/-! ### Claim C4: auto vs manual redeem classification -/

theorem any_redeem_le (events : List LifeEvent) (tb : Int) :
    (events.any fun e => e.name == "Redeemed" && decide (e.blockNumber - tb ≤ 50)) = true ↔
      ∃ e ∈ events, e.name = "Redeemed" ∧ e.blockNumber - tb ≤ 50 := by
  simp [List.any_eq_true]

theorem any_redeem_gt (events : List LifeEvent) (tb : Int) :
    (events.any fun e => e.name == "Redeemed" && !decide (e.blockNumber - tb ≤ 50)) = true ↔
      ∃ e ∈ events, e.name = "Redeemed" ∧ ¬ (e.blockNumber - tb ≤ 50) := by
  simp [List.any_eq_true]

/-- C4 counterexample: a lifecycle with creation at block 0 and redeems at
blocks 10 AND 100.  A redeemed event lies within 50 blocks, so the claim
requires AUTO_REDEEM/AUTO_REDEEMED; a redeemed event also lies more than
50 blocks out, which the claim says yields MANUAL_REDEEM/MANUALLY_REDEEMED.
The code gives the classifier `AUTO_REDEEM` (only the FIRST redeemed event
is consulted, so the late redeem does not yield MANUAL_REDEEM) and the
lifecycle status `REDEEMED` — a value the claimed
AUTO_REDEEMED/MANUALLY_REDEEMED dichotomy does not even contain. -/
theorem c4_counterexample :
    (classifyFailureDetailed traceNoneEnv ⟨none, none⟩ none (some mixedRedeemLifecycle)).failureAt
        = "AUTO_REDEEM" ∧
      (computeRetryableLifecycle 5000000 (some ⟨1000, 0⟩) (some mixedRedeemLifecycle)).status
        = "REDEEMED" ∧
      (computeRetryableLifecycle 5000000 (some ⟨1000, 0⟩) (some mixedRedeemLifecycle)).status
        ≠ "AUTO_REDEEMED" ∧
      (computeRetryableLifecycle 5000000 (some ⟨1000, 0⟩) (some mixedRedeemLifecycle)).status
        ≠ "MANUALLY_REDEEMED" := by
  exact ⟨by decide, by decide, by decide, by decide⟩

/-- C4 (amended): (a) in the classifier, when lifecycle data has redeemed
events, a creation event, and the L2 receipt is absent or not reverted,
the location is `AUTO_REDEEM` iff the FIRST redeemed event of the list is
within 50 blocks (absolute distance) of the creation event, else
`MANUAL_REDEEM` — later redeemed events are not consulted; (b) in
`computeRetryableLifecycle` (when not expired) the status is
`AUTO_REDEEMED` iff some redeemed event is within 50 blocks of the
ticket's recorded creation block AND no redeemed event is beyond 50
blocks; any redeemed event beyond 50 blocks yields status `REDEEMED`
(the code has no `MANUALLY_REDEEMED` status). -/
theorem classify_redeem_distance_rule :
    (∀ (env : ClassifyEnv) (det : Detection) (rt : Option Retryable) (lc : Lifecycle)
        (re0 : LifeEvent) (rest : List LifeEvent) (c : LifeEvent),
      lc.events.filter (fun e => e.name == "Redeemed") = re0 :: rest →
      lc.events.find? (fun e => e.name == "TicketCreated") = some c →
      (∀ rc2, det.l2Receipt = some rc2 → rc2.status ≠ 0) →
      (classifyFailureDetailed env det rt (some lc)).failureAt
        = if (re0.blockNumber - c.blockNumber).natAbs ≤ 50 then "AUTO_REDEEM"
          else "MANUAL_REDEEM") ∧
    (∀ (nowMs : Nat) (t : TicketRow) (lc : Lifecycle),
      ¬ (createdAtMsOf nowMs (some t) / 1000 + 7 * 86400 < nowMs / 1000) →
      ((computeRetryableLifecycle nowMs (some t) (some lc)).status = "AUTO_REDEEMED" ↔
        (∃ e ∈ lc.events, e.name = "Redeemed" ∧ e.blockNumber - t.block_number ≤ 50) ∧
          ∀ e ∈ lc.events, e.name = "Redeemed" → e.blockNumber - t.block_number ≤ 50) ∧
      ((computeRetryableLifecycle nowMs (some t) (some lc)).status = "REDEEMED" ↔
        ∃ e ∈ lc.events, e.name = "Redeemed" ∧ ¬ (e.blockNumber - t.block_number ≤ 50))) := by
  constructor
  · intro env det rt lc re0 rest c hf hc hl2
    unfold classifyFailureDetailed
    have hstep := stepLifecycle_redeem_failureAt env det lc
      (stepRetryable env rt (stepL1 det classifyInit)) re0 rest c hf hc hl2
    have hne : (stepL2 env det (stepLifecycle env det (some lc)
        (stepRetryable env rt (stepL1 det classifyInit)))).failureAt ≠ "UNKNOWN" := by
      rw [stepL2_not_reverted env det _ hl2, hstep]
      split <;> decide
    rw [stepFinal_of_ne rt _ hne, stepL2_not_reverted env det _ hl2, hstep]
  · intro nowMs t lc h
    have hstat : (computeRetryableLifecycle nowMs (some t) (some lc)).status =
        (if (lc.events.any fun e =>
              e.name == "Redeemed" && !decide (e.blockNumber - t.block_number ≤ 50)) = true
          then "REDEEMED"
          else if (lc.events.any fun e =>
              e.name == "Redeemed" && decide (e.blockNumber - t.block_number ≤ 50)) = true
          then "AUTO_REDEEMED" else "PENDING") := by
      simp only [computeRetryableLifecycle]
      rw [if_neg h]
    by_cases hman : (lc.events.any fun e =>
        e.name == "Redeemed" && !decide (e.blockNumber - t.block_number ≤ 50)) = true
    · rw [hstat, if_pos hman]
      constructor
      · constructor
        · intro hcontra
          exact absurd hcontra (by decide)
        · rintro ⟨_, hall⟩
          obtain ⟨e, hem, hname, hgt⟩ := (any_redeem_gt lc.events t.block_number).1 hman
          exact absurd (hall e hem hname) hgt
      · exact iff_of_true rfl ((any_redeem_gt lc.events t.block_number).1 hman)
    · have hman' : ∀ e ∈ lc.events, e.name = "Redeemed" → e.blockNumber - t.block_number ≤ 50 := by
        intro e hem hname
        by_contra hgt
        exact hman ((any_redeem_gt lc.events t.block_number).2 ⟨e, hem, hname, hgt⟩)
      by_cases hauto : (lc.events.any fun e =>
          e.name == "Redeemed" && decide (e.blockNumber - t.block_number ≤ 50)) = true
      · rw [hstat, if_neg hman, if_pos hauto]
        constructor
        · exact iff_of_true rfl ⟨(any_redeem_le lc.events t.block_number).1 hauto, hman'⟩
        · constructor
          · intro hcontra
            exact absurd hcontra (by decide)
          · rintro ⟨e, hem, hname, hgt⟩
            exact absurd ((any_redeem_gt lc.events t.block_number).2 ⟨e, hem, hname, hgt⟩) hman
      · rw [hstat, if_neg hman, if_neg hauto]
        constructor
        · constructor
          · intro hcontra
            exact absurd hcontra (by decide)
          · rintro ⟨⟨e, hem, hname, hle⟩, _⟩
            exact absurd ((any_redeem_le lc.events t.block_number).2 ⟨e, hem, hname, hle⟩) hauto
        · constructor
          · intro hcontra
            exact absurd hcontra (by decide)
          · rintro ⟨e, hem, hname, hgt⟩
            exact absurd ((any_redeem_gt lc.events t.block_number).2 ⟨e, hem, hname, hgt⟩) hman

/-- C4 witness: the amended theorem applied to a concrete lifecycle
(creation at block 0, single redeem at block 10, not expired): the
classifier reports `AUTO_REDEEM` and the lifecycle status is
`AUTO_REDEEMED`. -/
theorem classify_redeem_distance_rule_witness :
    (classifyFailureDetailed traceNoneEnv ⟨none, none⟩ none
        (some ⟨[⟨"TicketCreated", 0, "0xtc"⟩, ⟨"Redeemed", 10, "0xr1"⟩]⟩)).failureAt
      = "AUTO_REDEEM" ∧
    (computeRetryableLifecycle 5000000 (some ⟨1000, 0⟩)
        (some ⟨[⟨"TicketCreated", 0, "0xtc"⟩, ⟨"Redeemed", 10, "0xr1"⟩]⟩)).status
      = "AUTO_REDEEMED" := by
  constructor
  · have := classify_redeem_distance_rule.1 traceNoneEnv ⟨none, none⟩ none
      ⟨[⟨"TicketCreated", 0, "0xtc"⟩, ⟨"Redeemed", 10, "0xr1"⟩]⟩
      ⟨"Redeemed", 10, "0xr1"⟩ [] ⟨"TicketCreated", 0, "0xtc"⟩
      (by decide) (by decide) (by intro rc2 hrc2; cases hrc2)
    rw [this]
    decide
  · have := (classify_redeem_distance_rule.2 5000000 ⟨1000, 0⟩
      ⟨[⟨"TicketCreated", 0, "0xtc"⟩, ⟨"Redeemed", 10, "0xr1"⟩]⟩ (by decide)).1
    exact this.2 ⟨⟨⟨"Redeemed", 10, "0xr1"⟩, by decide, by decide, by decide⟩, by decide⟩

/-! ### Indexer fold lemmas -/

theorem insertAllCount_append (xs ys : List TicketDbRow) (acc : List TicketDbRow × Nat) :
    insertAllCount (xs ++ ys) acc = insertAllCount ys (insertAllCount xs acc) := by
  simp [insertAllCount, List.foldl_append]

theorem processLogs_eq (nowMs : Nat) (rc : IndexReceipt) :
    ∀ (logs : List (Option CreationEvent)) (acc : List TicketDbRow × Nat),
      processLogs nowMs rc logs acc
        = insertAllCount (logs.filterMap (fun l => l.map (rowOfCreation nowMs rc))) acc := by
  intro logs
  induction logs with
  | nil => intro acc; rfl
  | cons l ls ih =>
    intro acc
    cases l with
    | none =>
      have h1 : processLogs nowMs rc (none :: ls) acc = processLogs nowMs rc ls acc := rfl
      have h2 : insertAllCount
            ((none :: ls).filterMap (fun l => l.map (rowOfCreation nowMs rc))) acc
          = insertAllCount (ls.filterMap (fun l => l.map (rowOfCreation nowMs rc))) acc := rfl
      rw [h1, h2]
      exact ih acc
    | some p =>
      have h1 : processLogs nowMs rc (some p :: ls) acc
          = processLogs nowMs rc ls
              (insertOrIgnoreTicket acc.1 (rowOfCreation nowMs rc p), acc.2 + 1) := rfl
      have h2 : insertAllCount
            ((some p :: ls).filterMap (fun l => l.map (rowOfCreation nowMs rc))) acc
          = insertAllCount (ls.filterMap (fun l => l.map (rowOfCreation nowMs rc)))
              (insertOrIgnoreTicket acc.1 (rowOfCreation nowMs rc p), acc.2 + 1) := rfl
      rw [h1, h2]
      exact ih _

theorem processTxs_eq (nowMs : Nat) :
    ∀ (txs : List IndexTx) (acc : List TicketDbRow × Nat),
      processTxs nowMs txs acc = insertAllCount (rowsOfTxs nowMs txs) acc := by
  intro txs
  induction txs with
  | nil => intro acc; rfl
  | cons tx txs ih =>
    intro acc
    cases htx : tx.receipt with
    | none =>
      have h1 : processTxs nowMs (tx :: txs) acc = processTxs nowMs txs acc := by
        simp [processTxs, htx]
      have h2 : rowsOfTxs nowMs (tx :: txs) = rowsOfTxs nowMs txs := by
        simp [rowsOfTxs, htx]
      rw [h1, h2, ih]
    | some rc =>
      have h1 : processTxs nowMs (tx :: txs) acc
          = processTxs nowMs txs (processLogs nowMs rc rc.logs acc) := by
        simp [processTxs, htx]
      have h2 : rowsOfTxs nowMs (tx :: txs) = rowsOfReceipt nowMs rc ++ rowsOfTxs nowMs txs := by
        simp [rowsOfTxs, htx]
      rw [h1, h2, insertAllCount_append, ih, processLogs_eq nowMs rc rc.logs acc]
      rfl

theorem foldBlocks_eq (nowMs : Nat) (provider : Nat → Option (List IndexTx)) :
    ∀ (bs : List Nat) (acc : List TicketDbRow × Nat),
      bs.foldl
          (fun acc b =>
            match provider b with
            | none => acc
            | some txs => processTxs nowMs txs acc)
          acc
        = insertAllCount (rowsOfBlocks nowMs provider bs) acc := by
  intro bs
  induction bs with
  | nil => intro acc; rfl
  | cons b bs ih =>
    intro acc
    cases hb : provider b with
    | none =>
      have h2 : rowsOfBlocks nowMs provider (b :: bs) = rowsOfBlocks nowMs provider bs := by
        simp [rowsOfBlocks, hb]
      rw [List.foldl_cons, h2, hb]
      exact ih acc
    | some txs =>
      have h2 : rowsOfBlocks nowMs provider (b :: bs)
          = rowsOfTxs nowMs txs ++ rowsOfBlocks nowMs provider bs := by
        simp [rowsOfBlocks, hb]
      rw [List.foldl_cons, h2, hb, insertAllCount_append]
      dsimp only
      rw [ih, processTxs_eq nowMs txs acc]

theorem indexRange_eq (nowMs : Nat) (provider : Nat → Option (List IndexTx))
    (s e : Nat) (tbl : List TicketDbRow) :
    indexRange nowMs provider s e tbl
      = insertAllCount (rowsOfBlocks nowMs provider (List.range' s (e + 1 - s))) (tbl, 0) :=
  foldBlocks_eq nowMs provider (List.range' s (e + 1 - s)) (tbl, 0)

theorem insertAllCount_fst (rows : List TicketDbRow) :
    ∀ acc : List TicketDbRow × Nat, (insertAllCount rows acc).1 = insertFold rows acc.1 := by
  induction rows with
  | nil => intro acc; rfl
  | cons r rs ih =>
    intro acc
    simpa [insertAllCount, insertFold] using
      ih (insertOrIgnoreTicket acc.1 r, acc.2 + 1)

theorem insertAllCount_snd (rows : List TicketDbRow) :
    ∀ acc : List TicketDbRow × Nat, (insertAllCount rows acc).2 = acc.2 + rows.length := by
  induction rows with
  | nil => intro acc; simp [insertAllCount]
  | cons r rs ih =>
    intro acc
    have := ih (insertOrIgnoreTicket acc.1 r, acc.2 + 1)
    simp only [insertAllCount, List.foldl_cons, List.length_cons] at this ⊢
    rw [this]
    omega

theorem hasKey_insertOrIgnore_of (tbl : List TicketDbRow) (row : TicketDbRow) (k : String)
    (h : hasKey tbl k = true) : hasKey (insertOrIgnoreTicket tbl row) k = true := by
  unfold insertOrIgnoreTicket
  split
  · exact h
  · simp only [hasKey, List.any_append, Bool.or_eq_true]
    exact Or.inl h

theorem hasKey_insertOrIgnore_self (tbl : List TicketDbRow) (row : TicketDbRow) :
    hasKey (insertOrIgnoreTicket tbl row) row.ticket_id = true := by
  unfold insertOrIgnoreTicket
  split
  · assumption
  · simp [hasKey, List.any_append]

theorem hasKey_insertFold_of (rows : List TicketDbRow) :
    ∀ (tbl : List TicketDbRow) (k : String), hasKey tbl k = true →
      hasKey (insertFold rows tbl) k = true := by
  induction rows with
  | nil => intro tbl k h; exact h
  | cons r rs ih =>
    intro tbl k h
    exact ih (insertOrIgnoreTicket tbl r) k (hasKey_insertOrIgnore_of tbl r k h)

theorem hasKey_insertFold_mem (rows : List TicketDbRow) :
    ∀ (tbl : List TicketDbRow) (row : TicketDbRow), row ∈ rows →
      hasKey (insertFold rows tbl) row.ticket_id = true := by
  induction rows with
  | nil => intro tbl row h; cases h
  | cons r rs ih =>
    intro tbl row h
    rcases List.mem_cons.1 h with rfl | hmem
    · exact hasKey_insertFold_of rs (insertOrIgnoreTicket tbl row) row.ticket_id
        (hasKey_insertOrIgnore_self tbl row)
    · exact ih (insertOrIgnoreTicket tbl r) row hmem

theorem insertOrIgnore_of_hasKey (tbl : List TicketDbRow) (row : TicketDbRow)
    (h : hasKey tbl row.ticket_id = true) : insertOrIgnoreTicket tbl row = tbl := by
  unfold insertOrIgnoreTicket
  split
  · rfl
  · next hcond => exact absurd h hcond

theorem insertFold_of_all_hasKey (rows : List TicketDbRow) :
    ∀ tbl : List TicketDbRow, (∀ row ∈ rows, hasKey tbl row.ticket_id = true) →
      insertFold rows tbl = tbl := by
  induction rows with
  | nil => intro tbl _; rfl
  | cons r rs ih =>
    intro tbl h
    have hr := h r (List.mem_cons_self r rs)
    show insertFold rs (insertOrIgnoreTicket tbl r) = tbl
    rw [insertOrIgnore_of_hasKey tbl r hr]
    exact ih tbl (fun row hrow => h row (List.mem_cons_of_mem r hrow))

theorem rowsOfReceipt_time (now1 now2 : Nat) (rc : IndexReceipt) :
    rowsOfReceipt now2 rc = (rowsOfReceipt now1 rc).map (setCreatedAt now2) := by
  unfold rowsOfReceipt
  induction rc.logs with
  | nil => rfl
  | cons l ls ih =>
    cases l with
    | none => simpa [List.filterMap_cons] using ih
    | some p =>
      simp only [List.filterMap_cons, Option.map_some, List.map_cons]
      rw [ih]
      rfl

theorem rowsOfTxs_time (now1 now2 : Nat) :
    ∀ txs : List IndexTx,
      rowsOfTxs now2 txs = (rowsOfTxs now1 txs).map (setCreatedAt now2) := by
  intro txs
  induction txs with
  | nil => rfl
  | cons tx txs ih =>
    cases htx : tx.receipt with
    | none => simp [rowsOfTxs, htx, ih]
    | some rc =>
      simp only [rowsOfTxs, List.foldr_cons, htx, List.map_append]
      rw [← rowsOfReceipt_time now1 now2 rc]
      exact congrArg _ ih

theorem rowsOfBlocks_time (now1 now2 : Nat) (provider : Nat → Option (List IndexTx)) :
    ∀ bs : List Nat,
      rowsOfBlocks now2 provider bs
        = (rowsOfBlocks now1 provider bs).map (setCreatedAt now2) := by
  intro bs
  induction bs with
  | nil => rfl
  | cons b bs ih =>
    cases hb : provider b with
    | none => simp [rowsOfBlocks, hb, ih]
    | some txs =>
      simp only [rowsOfBlocks, List.foldr_cons, hb, List.map_append]
      rw [← rowsOfTxs_time now1 now2 txs]
      exact congrArg _ ih

theorem rowsOfBlocks_count (nowMs : Nat) (provider : Nat → Option (List IndexTx)) :
    ∀ bs : List Nat,
      (rowsOfBlocks nowMs provider bs).length
        = (bs.map (fun b =>
            match provider b with
            | none => 0
            | some txs =>
              (txs.map
                (fun tx =>
                  match tx.receipt with
                  | none => 0
                  | some rc => creationLogsOfReceipt rc)).sum)).sum := by
  have hrec : ∀ rc : IndexReceipt, (rowsOfReceipt nowMs rc).length = creationLogsOfReceipt rc := by
    intro rc
    unfold rowsOfReceipt creationLogsOfReceipt
    induction rc.logs with
    | nil => rfl
    | cons l ls ih =>
      cases l with
      | none => simpa [List.filterMap_cons, List.countP_cons] using ih
      | some p => simpa [List.filterMap_cons, List.countP_cons] using ih
  have htxs : ∀ txs : List IndexTx,
      (rowsOfTxs nowMs txs).length
        = (txs.map
            (fun tx =>
              match tx.receipt with
              | none => 0
              | some rc => creationLogsOfReceipt rc)).sum := by
    intro txs
    induction txs with
    | nil => rfl
    | cons tx txs ih =>
      cases htx : tx.receipt with
      | none => simp [rowsOfTxs, htx, ih]
      | some rc => simp [rowsOfTxs, htx, ih, hrec rc]
  intro bs
  induction bs with
  | nil => rfl
  | cons b bs ih =>
    cases hb : provider b with
    | none => simp [rowsOfBlocks, hb, ih]
    | some txs => simp [rowsOfBlocks, hb, ih, htxs txs]

/-! ### Claim C8: background-scan idempotence -/

/-- C8 (confirmed): running `indexRange` a second time over the same block
range with the same chain data (at any later wall-clock stamp) leaves the
`retryable_tickets` table exactly as the first run left it — in particular
the row count is unchanged — because the insert is `INSERT OR IGNORE`
keyed on the unique `ticket_id`, and every ticket id the re-scan meets is
already present after the first run. -/
theorem indexRange_rescan_unchanged (provider : Nat → Option (List IndexTx))
    (s e : Nat) (tbl : List TicketDbRow) (now1 now2 : Nat) :
    (indexRange now2 provider s e (indexRange now1 provider s e tbl).1).1
        = (indexRange now1 provider s e tbl).1 ∧
      (indexRange now2 provider s e (indexRange now1 provider s e tbl).1).1.length
        = (indexRange now1 provider s e tbl).1.length := by
  have hmain : (indexRange now2 provider s e (indexRange now1 provider s e tbl).1).1
      = (indexRange now1 provider s e tbl).1 := by
    rw [indexRange_eq now2, indexRange_eq now1, insertAllCount_fst, insertAllCount_fst]
    apply insertFold_of_all_hasKey
    intro row hrow
    rw [rowsOfBlocks_time now1 now2 provider] at hrow
    obtain ⟨r1, hr1, rfl⟩ := List.mem_map.1 hrow
    exact hasKey_insertFold_mem _ tbl r1 hr1
  exact ⟨hmain, by rw [hmain]⟩

/-! ### Claim C10: the inserted count counts ignored rows too -/

/-- C10 (confirmed): the `inserted` count returned by `indexRange` equals
the number of parsed `RetryableTicketCreated` logs in the range — it is
incremented once per parsed log whether or not the `INSERT OR IGNORE`
actually stored a row, and is independent of the table contents.  A
re-scan of an already-indexed range therefore reports the same positive
count while leaving the table unchanged. -/
theorem indexRange_counts_every_log (provider : Nat → Option (List IndexTx))
    (s e : Nat) (tbl : List TicketDbRow) (now1 now2 : Nat) :
    (indexRange now1 provider s e tbl).2 = creationLogCount provider s e ∧
      (indexRange now2 provider s e (indexRange now1 provider s e tbl).1).2
        = creationLogCount provider s e ∧
      (0 < creationLogCount provider s e →
        0 < (indexRange now2 provider s e (indexRange now1 provider s e tbl).1).2 ∧
          (indexRange now2 provider s e (indexRange now1 provider s e tbl).1).1
            = (indexRange now1 provider s e tbl).1) := by
  have hcount : ∀ (nowMs : Nat) (t : List TicketDbRow),
      (indexRange nowMs provider s e t).2 = creationLogCount provider s e := by
    intro nowMs t
    rw [indexRange_eq, insertAllCount_snd, rowsOfBlocks_count]
    simp [creationLogCount]
  have hunch : (indexRange now2 provider s e (indexRange now1 provider s e tbl).1).1
      = (indexRange now1 provider s e tbl).1 := by
    rw [indexRange_eq now2, indexRange_eq now1, insertAllCount_fst, insertAllCount_fst]
    apply insertFold_of_all_hasKey
    intro row hrow
    rw [rowsOfBlocks_time now1 now2 provider] at hrow
    obtain ⟨r1, hr1, rfl⟩ := List.mem_map.1 hrow
    exact hasKey_insertFold_mem _ tbl r1 hr1
  refine ⟨hcount now1 tbl, hcount now2 _, fun hpos => ⟨?_, hunch⟩⟩
  rw [hcount now2 _]
  exact hpos

/-- C10 witness: for chain data with one creation log in block 0, the
re-scan of the already-indexed range [0, 0] still reports a positive
inserted count. -/
theorem indexRange_counts_every_log_witness :
    0 < (indexRange 2 sampleProvider 0 0 (indexRange 1 sampleProvider 0 0 []).1).2 := by
  exact ((indexRange_counts_every_log sampleProvider 0 0 [] 1 2).2.2 (by decide)).1

end ArbiTrace
